import Mathlib

/-!
# arp-exporter: monitoring and gratuitous-ARP paths

A shallow embedding of `internal/monitoring/monitoring.go`, `internal/monitoring/prom.go`
and `internal/server/server.go`.

* Byte slices (`net.IP`, `net.HardwareAddr`, `[]byte`) are `List Nat`.
* Go maps are association lists (`GoMap`); a store or a deletion leaves at most one
  binding under the key it touches, and iteration visits the bindings of the list.
* The two goroutines interleave at the grain of `mu`: a processed packet is one step,
  and an iteration of the cleanup loop is a test without `mu`, then the packets that
  get `mu` first, then the deletion under `mu` (`Slot`, `cleanupEntry`).
* Instants are integers counting nanoseconds; `time.Duration` is a 64-bit count of
  nanoseconds and `Time.Sub` saturates, which `Since` reproduces.
* Functions of libraries outside the repository (the structure hash, the textual
  rendering of addresses, IP parsing, layer serialisation, the capture handle's write)
  are the fields of `Lib` and of `Handle`.
-/

namespace ArpExporter

/-! ## Go maps -/

/-- Finite map in the style of a Go `map[K]V`: a list of bindings. -/
structure GoMap (K V : Type) where
  entries : List (K × V)
deriving DecidableEq, Repr

namespace GoMap

variable {K V : Type} [DecidableEq K]

/-- First binding of `k` in a list of bindings. -/
def lookup : List (K × V) → K → Option V
  | [], _ => none
  | (a, v) :: rest, k => if a = k then some v else lookup rest k

/-- The bindings of a list whose key is not `k`. -/
def erase : List (K × V) → K → List (K × V)
  | [], _ => []
  | (a, v) :: rest, k => if a = k then erase rest k else (a, v) :: erase rest k

/-- The map made by `make(map[K]V)`. -/
def empty : GoMap K V := ⟨[]⟩

/-- Lookup `m[k]` with presence flag. -/
def get (m : GoMap K V) (k : K) : Option V := lookup m.entries k

/-- Store `m[k] = v`: any former binding of `k` is replaced. -/
def set (m : GoMap K V) (k : K) (v : V) : GoMap K V :=
  ⟨(k, v) :: erase m.entries k⟩

/-- Deletion `delete(m, k)`. -/
def delete (m : GoMap K V) (k : K) : GoMap K V :=
  ⟨erase m.entries k⟩

/-- Number of bindings, `len(m)`. -/
def size (m : GoMap K V) : Nat := m.entries.length

end GoMap

/-! ## Time -/

/-- Largest `time.Duration`, `1<<63 - 1` nanoseconds. -/
def maxDuration : Int := 2 ^ 63 - 1

/-- Smallest `time.Duration`, `-1 << 63` nanoseconds. -/
def minDuration : Int := -(2 ^ 63)

/-- The constant `time.Minute`, in nanoseconds. -/
def Minute : Int := 60 * 1000000000

/-- `t.Sub(u)`: the difference of two instants as a `Duration`, saturating at the
largest and smallest representable durations. -/
def Sub (t u : Int) : Int :=
  if t - u > maxDuration then maxDuration
  else if t - u < minDuration then minDuration
  else t - u

/-- `time.Since(t)` evaluated at the instant `now`. -/
def Since (now t : Int) : Int := Sub now t

/-! ## Data of `prom.go` and `monitoring.go` -/

/-- Struct `MonitoringData` of `prom.go`. -/
structure MonitoringData where
  Node : String
  Device : String
  SrcMac : String
  DstMac : String
  SenderMac : String
  SenderIP : String
  TargetMac : String
  TargetIP : String
  OpType : String
deriving DecidableEq, Repr

/-- `prometheus.Labels`, a `map[string]string`, as the list of its name/value pairs. -/
abbrev Labels := List (String × String)

/-- Struct `LabelEntry` of `monitoring.go`. -/
structure LabelEntry where
  LastTime : Int
  Labels : Labels
deriving DecidableEq, Repr

/-- `layers.Ethernet`, the fields the program reads or sets. -/
structure Ethernet where
  SrcMAC : List Nat
  DstMAC : List Nat
  EthernetType : Nat
deriving DecidableEq, Repr

/-- `layers.ARP`. -/
structure ARP where
  AddrType : Nat
  Protocol : Nat
  HwAddressSize : Nat
  ProtAddressSize : Nat
  Operation : Nat
  SourceHwAddress : List Nat
  SourceProtAddress : List Nat
  DstHwAddress : List Nat
  DstProtAddress : List Nat
deriving DecidableEq, Repr

/-- A decoded `gopacket.Packet`: `packet.Layer(t)` is `nil` exactly when the layer of
type `t` is absent. -/
structure Packet where
  ethernetLayer : Option Ethernet
  arpLayer : Option ARP
deriving DecidableEq, Repr

/-- Constant `layers.ARPRequest`. -/
def ARPRequest : Nat := 1
/-- Constant `layers.ARPReply`. -/
def ARPReply : Nat := 2
/-- Constant `layers.LinkTypeEthernet`. -/
def LinkTypeEthernet : Nat := 1
/-- Constant `layers.EthernetTypeIPv4`. -/
def EthernetTypeIPv4 : Nat := 0x0800
/-- Constant `layers.EthernetTypeARP`. -/
def EthernetTypeARP : Nat := 0x0806

/-- The capture handle as seen by the injection path: `WritePacketData` returns an
error message or `none` on success. -/
structure Handle where
  WritePacketData : List Nat → Option String

/-- Library functions the program calls and that are not part of the repository. -/
structure Lib where
  /-- `hashstructure.Hash(md, FormatV2, nil)`: a 64-bit hash or an error. -/
  Hash : MonitoringData → Except String Nat
  /-- `net.HardwareAddr.String`. -/
  macString : List Nat → String
  /-- `net.IP.String`. -/
  ipString : List Nat → String
  /-- `net.ParseIP`; `none` is the nil result. -/
  ParseIP : String → Option (List Nat)
  /-- `gopacket.SerializeLayers` with `FixLengths` and `ComputeChecksums`, on an Ethernet
  and an ARP layer. -/
  SerializeLayers : Ethernet → ARP → Except String (List Nat)

/-- The package-level variables `activeLabels` and `totalArpPackets`; the counter
vector is the finite map from label sets to the count of their series. -/
structure Monitor where
  activeLabels : GoMap Nat LabelEntry
  totalArpPackets : GoMap Labels Nat
deriving DecidableEq, Repr

/-- State set up by `RunForever` before its loop: `PromInit()` and
`activeLabels = make(map[uint64]LabelEntry)`. -/
def Monitor.init : Monitor := ⟨GoMap.empty, GoMap.empty⟩

/-- `vec.With(labels).Inc()`: the series of `labels` is created at zero when absent,
then incremented. -/
def WithInc (vec : GoMap Labels Nat) (labels : Labels) : GoMap Labels Nat :=
  vec.set labels ((vec.get labels).getD 0 + 1)

/-- The `switch arpPacket.Operation` of `processPacket`. -/
def opType (operation : Nat) : String :=
  if operation = ARPRequest then "Request"
  else if operation = ARPReply then "Reply"
  else "Unknown (" ++ toString operation ++ ")"

/-- The `MonitoringData` literal of `processPacket`. -/
def monitoringData (lib : Lib) (ethernetPacket : Ethernet) (arpPacket : ARP)
    (hostname device : String) : MonitoringData :=
  { Node := hostname
    Device := device
    SrcMac := lib.macString ethernetPacket.SrcMAC
    DstMac := lib.macString ethernetPacket.DstMAC
    SenderMac := lib.macString arpPacket.SourceHwAddress
    SenderIP := lib.ipString arpPacket.SourceProtAddress
    TargetMac := lib.macString arpPacket.DstHwAddress
    TargetIP := lib.ipString arpPacket.DstProtAddress
    OpType := opType arpPacket.Operation }

/-- The `prometheus.Labels` literal of `processPacket`. -/
def promLabels (md : MonitoringData) : Labels :=
  [("node", md.Node), ("device", md.Device), ("src_mac", md.SrcMac),
   ("dst_mac", md.DstMac), ("sender_mac", md.SenderMac), ("sender_ip", md.SenderIP),
   ("target_mac", md.TargetMac), ("target_ip", md.TargetIP), ("op_type", md.OpType)]

/-- Function `processPacket`; `now` is the value of `time.Now()` at the cache store. -/
def processPacket (lib : Lib) (now : Int) (packet : Packet) (hostname device : String)
    (s : Monitor) : Monitor :=
  match packet.ethernetLayer with
  | none => s
  | some ethernetPacket =>
    match packet.arpLayer with
    | none => s
    | some arpPacket =>
      let md := monitoringData lib ethernetPacket arpPacket hostname device
      match lib.Hash md with
      | .error _ => s
      | .ok hashValue =>
        { totalArpPackets := WithInc s.totalArpPackets (promLabels md)
          activeLabels := s.activeLabels.set hashValue
            { LastTime := now, Labels := promLabels md } }

/-- What the last two statements of `processPacket` (lines 158 to 163) work on, for one
packet whose hash succeeded: the hash, the label set and the value of `time.Now()`. -/
structure Observation where
  hashValue : Nat
  Labels : Labels
  now : Int
deriving DecidableEq, Repr

/-- The last two statements of `processPacket`: the increment of the series and the
store into `activeLabels`. -/
def observe (s : Monitor) (o : Observation) : Monitor :=
  { totalArpPackets := WithInc s.totalArpPackets o.Labels
    activeLabels := s.activeLabels.set o.hashValue { LastTime := o.now, Labels := o.Labels } }

/-- One iteration of the `range activeLabels` loop of `cleanupInactiveLabels`, as it is
scheduled against the loop of `RunForever`: the key the range is at, the instant of
`time.Since`, the observations `RunForever` makes, holding `mu`, before the range reads
the entry, and those it makes after the test of line 86 and before the cleanup obtains
`mu` at line 87 (before the next iteration when the test fails). -/
structure Slot where
  key : Nat
  now : Int
  before : List Observation
  between : List Observation
deriving DecidableEq, Repr

/-- One iteration of the inner `range activeLabels` loop of `cleanupInactiveLabels`:
the entry under the key is copied and tested without `mu`; the packets `RunForever`
gets through in between are processed; then, when the test succeeded, the series of
the copied labels is deleted under `mu`. -/
def cleanupEntry (s : Monitor) (slot : Slot) : Monitor :=
  match (slot.before.foldl observe s).activeLabels.get slot.key with
  | none => slot.between.foldl observe (slot.before.foldl observe s)
  | some entry =>
    if Since slot.now entry.LastTime > 10 * Minute then
      { activeLabels :=
          (slot.between.foldl observe (slot.before.foldl observe s)).activeLabels
        totalArpPackets :=
          (slot.between.foldl observe
            (slot.before.foldl observe s)).totalArpPackets.delete entry.Labels }
    else slot.between.foldl observe (slot.before.foldl observe s)

/-- The body run by `cleanupInactiveLabels` at one tick, under a schedule: the
iterations of the `range` loop in order. -/
def cleanupSweep (slots : List Slot) (s : Monitor) : Monitor :=
  slots.foldl cleanupEntry s

/-- The schedule of a pass during which `RunForever` processes no packet and every
test reads the same instant `now`: one iteration per binding. -/
def quietSlots (now : Int) (bindings : List (Nat × LabelEntry)) : List Slot :=
  bindings.map (fun kv => { key := kv.1, now := now, before := [], between := [] })

/-- The body run by `cleanupInactiveLabels` at one tick when `RunForever` processes no
packet while it runs and every test reads the instant `now`. -/
def cleanupPass (now : Int) (s : Monitor) : Monitor :=
  cleanupSweep (quietSlots now s.activeLabels.entries) s

/-- Function `cleanupInactiveLabels` over the ticks delivered so far, each with the
schedule of its pass. -/
def cleanupInactiveLabels (passes : List (List Slot)) (s : Monitor) : Monitor :=
  passes.foldl (fun st slots => cleanupSweep slots st) s

/-! ## `internal/server/server.go` -/

/-- `net.Interface`, the field the program reads. -/
structure Interface where
  HardwareAddr : List Nat
deriving DecidableEq, Repr

/-- `net.IP.To4`: a 4-byte address is returned as it is, a 16-byte address with the
IPv4-in-IPv6 header (ten zero bytes, then `ff ff`) gives its last four bytes, and any
other slice gives `nil`. -/
def To4 (ip : List Nat) : Option (List Nat) :=
  if ip.length = 4 then some ip
  else if ip.length = 16 ∧ ip.take 10 = List.replicate 10 0 ∧
      ip.getD 10 0 = 0xff ∧ ip.getD 11 0 = 0xff then some (ip.drop 12)
  else none

/-- Outcome of one call of `sendGratuitousARP`: the returned error (`none` for `nil`),
the two layers handed to the serialiser when that point was reached, and the buffers
passed to `WritePacketData`. -/
structure SendResult where
  err : Option String
  layers : Option (Ethernet × ARP)
  writes : List (List Nat)
deriving DecidableEq, Repr

/-- Function `sendGratuitousARP`; `pcapHandle` is the value of `monitoring.GetHandle()`. -/
def sendGratuitousARP (lib : Lib) (pcapHandle : Option Handle) (ip : List Nat)
    (iface : Interface) : SendResult :=
  match To4 ip with
  | none => ⟨some "Only ipv4 addresses are supported for gARP", none, []⟩
  | some ip4 =>
    let ethernetLayer : Ethernet :=
      { SrcMAC := iface.HardwareAddr
        DstMAC := [0xff, 0xff, 0xff, 0xff, 0xff, 0xff]
        EthernetType := EthernetTypeARP }
    let arpLayer : ARP :=
      { AddrType := LinkTypeEthernet
        Protocol := EthernetTypeIPv4
        HwAddressSize := iface.HardwareAddr.length % 256
        ProtAddressSize := ip4.length % 256
        Operation := ARPReply
        SourceHwAddress := iface.HardwareAddr
        SourceProtAddress := ip4
        DstHwAddress := [0x00, 0x00, 0x00, 0x00, 0x00, 0x00]
        DstProtAddress := ip4 }
    match lib.SerializeLayers ethernetLayer arpLayer with
    | .error e => ⟨some ("Error serializing layers: " ++ e), some (ethernetLayer, arpLayer), []⟩
    | .ok buffer =>
      match pcapHandle with
      | none => ⟨some "Could not get a handle to pcap...", some (ethernetLayer, arpLayer), []⟩
      | some handle =>
        match handle.WritePacketData buffer with
        | some e =>
          ⟨some ("error injecting packet: " ++ e), some (ethernetLayer, arpLayer), [buffer]⟩
        | none => ⟨none, some (ethernetLayer, arpLayer), [buffer]⟩

/-- `url.Values`, a `map[string][]string`. -/
abbrev Values := List (String × List String)

/-- `Values.Get`: the first value of the key, or the empty string. -/
def Values.Get (v : Values) (key : String) : String :=
  match GoMap.lookup v key with
  | some (x :: _) => x
  | _ => ""

/-- The parts of `http.Request` the handler reads: the method and `req.URL.Query()`. -/
structure Request where
  Method : String
  Query : Values
deriving DecidableEq, Repr

/-- What one run of the handler does: the status and body written to the
`ResponseWriter`, the `ip` argument of every call of `sendGratuitousARP`, and the
buffers passed to `WritePacketData`. -/
structure Handled where
  status : Nat
  body : String
  garpCalls : List (List Nat)
  writes : List (List Nat)
deriving DecidableEq, Repr

/-- Constant `http.MethodGet`. -/
def MethodGet : String := "GET"
/-- Constant `http.StatusOK`, the status of a response written without `WriteHeader`. -/
def StatusOK : Nat := 200
/-- Constant `http.StatusBadRequest`. -/
def StatusBadRequest : Nat := 400
/-- Constant `http.StatusMethodNotAllowed`. -/
def StatusMethodNotAllowed : Nat := 405
/-- Constant `http.StatusInternalServerError`. -/
def StatusInternalServerError : Nat := 500

/-- `http.Error(w, msg, code)` as the only write of a handler run that made the given
calls: status `code`, body `msg` followed by a newline. -/
def httpError (msg : String) (code : Nat) (garpCalls writes : List (List Nat)) : Handled :=
  ⟨code, msg ++ "\n", garpCalls, writes⟩

/-- The closure returned by `makeHandleSendGarp(device, iface)`, run on one request. -/
def makeHandleSendGarp (lib : Lib) (pcapHandle : Option Handle) (_device : String)
    (iface : Interface) (req : Request) : Handled :=
  if req.Method ≠ MethodGet then
    httpError "Only GET requests are allowed" StatusMethodNotAllowed [] []
  else
    let targetIPStr := req.Query.Get "target"
    let newIPStr := req.Query.Get "new"
    if targetIPStr = "" ∨ newIPStr = "" then
      httpError ("Missing \x27target\x27 or \x27new\x27 query parameters: \x27" ++ targetIPStr
        ++ "\x27 - \x27" ++ newIPStr ++ "\x27") StatusBadRequest [] []
    else
      match lib.ParseIP targetIPStr, lib.ParseIP newIPStr with
      | some _, some newIP =>
        let r := sendGratuitousARP lib pcapHandle newIP iface
        match r.err with
        | some err =>
          httpError ("Error sending gARP for " ++ newIPStr ++ ": " ++ err)
            StatusInternalServerError [newIP] r.writes
        | none => ⟨StatusOK, "Successfully sent gARP for " ++ newIPStr ++ "\n", [newIP], r.writes⟩
      | _, _ => httpError "Invalid IP Address format" StatusBadRequest [] []

/-! ## Lock discipline of the two goroutines -/

/-- Steps of a goroutine that matter for the locking of `activeLabels`. -/
inductive Event where
  | Lock
  | Unlock
  | ReadActiveLabels
  | WriteActiveLabels
  | SeriesInc
  | SeriesDelete
deriving DecidableEq, Repr

/-- Steps of `processPacket` on one packet, in program order. -/
def processPacketEvents (lib : Lib) (packet : Packet) (hostname device : String) :
    List Event :=
  match packet.ethernetLayer with
  | none => []
  | some ethernetPacket =>
    match packet.arpLayer with
    | none => []
    | some arpPacket =>
      match lib.Hash (monitoringData lib ethernetPacket arpPacket hostname device) with
      | .error _ => []
      | .ok _ => [Event.SeriesInc, Event.WriteActiveLabels]

/-- Steps of one iteration of the `for`/`select` loop of `RunForever` that received
`packet`: `mu.Lock()`, `processPacket(...)`, `mu.Unlock()`. -/
def RunForeverEvents (lib : Lib) (packet : Packet) (hostname device : String) :
    List Event :=
  [Event.Lock] ++ processPacketEvents lib packet hostname device ++ [Event.Unlock]

/-- Steps of one pass of `cleanupInactiveLabels` over the given bindings: the `range`
reads the map to fetch each binding, then the body runs. -/
def cleanupEvents (now : Int) : List (Nat × LabelEntry) → List Event
  | [] => [Event.ReadActiveLabels]
  | kv :: rest =>
    Event.ReadActiveLabels ::
      ((if Since now kv.2.LastTime > 10 * Minute then
          [Event.Lock, Event.SeriesDelete, Event.Unlock]
        else []) ++ cleanupEvents now rest)

/-- Whether every access to `activeLabels` in a sequence of steps happens while the
goroutine holds `mu`; `held` says whether it holds `mu` at the start. -/
def accessesUnderLock (held : Bool) : List Event → Bool
  | [] => true
  | Event.Lock :: rest => accessesUnderLock true rest
  | Event.Unlock :: rest => accessesUnderLock false rest
  | Event.ReadActiveLabels :: rest => held && accessesUnderLock held rest
  | Event.WriteActiveLabels :: rest => held && accessesUnderLock held rest
  | _ :: rest => accessesUnderLock held rest

/-! ## Instances of the library functions, to run the definitions on concrete inputs -/

/-- Two lower-case hexadecimal digits of a byte. -/
def hexByte (b : Nat) : String := String.mk [Nat.digitChar (b / 16), Nat.digitChar (b % 16)]

/-- Colon-separated hexadecimal rendering of a hardware address. -/
def exampleMacString (a : List Nat) : String := ":".intercalate (a.map hexByte)

/-- Rendering of an address: dotted decimal when it has an IPv4 form, `<nil>` when
empty, and `?` followed by its hexadecimal digits otherwise. -/
def exampleIPString (ip : List Nat) : String :=
  if ip.length = 0 then "<nil>"
  else match To4 ip with
    | some p => ".".intercalate (p.map toString)
    | none => "?" ++ String.join (ip.map hexByte)

/-- One round of a 64-bit FNV-1a hash over the characters of a string. -/
def fnvString (h : Nat) (s : String) : Nat :=
  s.data.foldl (fun acc c => ((acc ^^^ c.toNat) * 1099511628211) % 2 ^ 64) h

/-- A 64-bit hash of the nine fields of a `MonitoringData`; it never fails. -/
def exampleHash (md : MonitoringData) : Except String Nat :=
  .ok ([md.Node, md.Device, md.SrcMac, md.DstMac, md.SenderMac, md.SenderIP,
    md.TargetMac, md.TargetIP, md.OpType].foldl
      (fun h s => (fnvString h s * 1099511628211) % 2 ^ 64) 14695981039346656037)

/-- A parser that knows the three addresses used in the examples below. -/
def exampleParseIP (s : String) : Option (List Nat) :=
  if s = "192.168.1.50" then some [0, 0, 0, 0, 0, 0, 0, 0, 0, 0, 0xff, 0xff, 192, 168, 1, 50]
  else if s = "192.168.1.1" then some [0, 0, 0, 0, 0, 0, 0, 0, 0, 0, 0xff, 0xff, 192, 168, 1, 1]
  else if s = "2001:db8::1" then
    some [0x20, 0x01, 0x0d, 0xb8, 0, 0, 0, 0, 0, 0, 0, 0, 0, 0, 0, 1]
  else none

/-- Big-endian bytes of a 16-bit value. -/
def be16 (n : Nat) : List Nat := [n / 256 % 256, n % 256]

/-- The bytes of an ARP message behind an Ethernet II header, padded with zeros to the
minimum frame size of 60 bytes; addresses of the wrong or of mismatched sizes are
refused. -/
def exampleSerializeLayers (eth : Ethernet) (arp : ARP) : Except String (List Nat) :=
  if eth.DstMAC.length ≠ 6 then .error "invalid dst MAC"
  else if eth.SrcMAC.length ≠ 6 then .error "invalid src MAC"
  else if arp.SourceHwAddress.length ≠ arp.DstHwAddress.length then
    .error "mismatched hardware address sizes"
  else if arp.SourceProtAddress.length ≠ arp.DstProtAddress.length then
    .error "mismatched prot address sizes"
  else
    let frame := eth.DstMAC ++ eth.SrcMAC ++ be16 eth.EthernetType ++ be16 arp.AddrType
      ++ be16 arp.Protocol
      ++ [arp.SourceHwAddress.length % 256, arp.SourceProtAddress.length % 256]
      ++ be16 arp.Operation ++ arp.SourceHwAddress ++ arp.SourceProtAddress
      ++ arp.DstHwAddress ++ arp.DstProtAddress
    .ok (frame ++ List.replicate (60 - frame.length) 0)

/-- The instance of `Lib` used in the examples. -/
def exampleLib : Lib :=
  { Hash := exampleHash
    macString := exampleMacString
    ipString := exampleIPString
    ParseIP := exampleParseIP
    SerializeLayers := exampleSerializeLayers }

/-- A capture handle whose writes succeed. -/
def exampleHandle : Handle := ⟨fun _ => none⟩

/-- The Ethernet header of a broadcast from `aa:bb:cc:dd:ee:ff`. -/
def exampleEthernet : Ethernet :=
  { SrcMAC := [0xaa, 0xbb, 0xcc, 0xdd, 0xee, 0xff]
    DstMAC := [0xff, 0xff, 0xff, 0xff, 0xff, 0xff]
    EthernetType := EthernetTypeARP }

/-- The ARP request `who has 192.168.1.1, tell 192.168.1.50` of `aa:bb:cc:dd:ee:ff`. -/
def exampleARP : ARP :=
  { AddrType := LinkTypeEthernet
    Protocol := EthernetTypeIPv4
    HwAddressSize := 6
    ProtAddressSize := 4
    Operation := ARPRequest
    SourceHwAddress := [0xaa, 0xbb, 0xcc, 0xdd, 0xee, 0xff]
    SourceProtAddress := [192, 168, 1, 50]
    DstHwAddress := [0, 0, 0, 0, 0, 0]
    DstProtAddress := [192, 168, 1, 1] }

/-- An ARP request `who has 192.168.1.1, tell 192.168.1.50` from `aa:bb:cc:dd:ee:ff`. -/
def examplePacket : Packet :=
  { ethernetLayer := some exampleEthernet, arpLayer := some exampleARP }

/-- A packet like `examplePacket` that carries the operation code `code`. -/
def exampleOpPacket (code : Nat) : Packet :=
  { ethernetLayer := some exampleEthernet
    arpLayer := some { exampleARP with Operation := code } }

/-- The monitor after `examplePacket` was processed at instant `0` on host `host`,
device `eth0`, starting from the initial state. -/
def exampleState : Monitor :=
  processPacket exampleLib 0 examplePacket "host" "eth0" Monitor.init

/-- The label set of `examplePacket` on host `host`, device `eth0`. -/
def exampleLabels : Labels :=
  [("node", "host"), ("device", "eth0"), ("src_mac", "aa:bb:cc:dd:ee:ff"),
   ("dst_mac", "ff:ff:ff:ff:ff:ff"), ("sender_mac", "aa:bb:cc:dd:ee:ff"),
   ("sender_ip", "192.168.1.50"), ("target_mac", "00:00:00:00:00:00"),
   ("target_ip", "192.168.1.1"), ("op_type", "Request")]

/-- The hash `exampleHash` gives to `exampleLabels`. -/
def exampleFingerprint : Nat := 10740625220536254653

/-- An interface with hardware address `aa:bb:cc:dd:ee:ff`. -/
def exampleInterface : Interface := ⟨[0xaa, 0xbb, 0xcc, 0xdd, 0xee, 0xff]⟩

/-- A packet with an Ethernet layer and no ARP layer. -/
def exampleNonArpPacket : Packet :=
  { ethernetLayer := some
      { SrcMAC := [0xaa, 0xbb, 0xcc, 0xdd, 0xee, 0xff]
        DstMAC := [0xff, 0xff, 0xff, 0xff, 0xff, 0xff]
        EthernetType := EthernetTypeIPv4 }
    arpLayer := none }

/-- The request `GET /v1/garp?target=<target>`, which has no `new` parameter. -/
def exampleMissingNew (target : String) : Request :=
  { Method := "GET", Query := [("target", [target])] }

/-- The request `GET /v1/garp?target=<target>&new=<new>`. -/
def exampleRequest (target new : String) : Request :=
  { Method := "GET", Query := [("target", [target]), ("new", [new])] }

/-- What `processPacket` works on when `examplePacket` arrives on host `host`, device
`eth0`, one nanosecond after the eleventh minute. -/
def exampleObservation : Observation :=
  { hashValue := exampleFingerprint, Labels := exampleLabels, now := 11 * Minute + 1 }

/-- The iteration of a cleanup pass at the entry of `examplePacket`, tested at the
eleventh minute, with `examplePacket` processed again before the cleanup obtains `mu`. -/
def exampleSlot : Slot :=
  { key := exampleFingerprint, now := 11 * Minute, before := [],
    between := [exampleObservation] }

/-- The frame that announces 192.168.1.50 from `aa:bb:cc:dd:ee:ff`, as
`exampleSerializeLayers` lays it out. -/
def exampleGarpFrame : List Nat :=
  [0xff, 0xff, 0xff, 0xff, 0xff, 0xff, 0xaa, 0xbb, 0xcc, 0xdd, 0xee, 0xff, 0x08, 0x06,
   0x00, 0x01, 0x08, 0x00, 6, 4, 0x00, 0x02,
   0xaa, 0xbb, 0xcc, 0xdd, 0xee, 0xff, 192, 168, 1, 50,
   0, 0, 0, 0, 0, 0, 192, 168, 1, 50,
   0, 0, 0, 0, 0, 0, 0, 0, 0, 0, 0, 0, 0, 0, 0, 0, 0, 0]

/-! ## Reachable states and the label of a frame -/

/-- States the monitor reaches when every cleanup pass runs while `RunForever` processes
no packet: the initial state, closed under processing a packet and under such a pass. -/
inductive Reachable (lib : Lib) : Monitor → Prop where
  | init : Reachable lib Monitor.init
  | process (now : Int) (packet : Packet) (hostname device : String) (s : Monitor) :
      Reachable lib s → Reachable lib (processPacket lib now packet hostname device s)
  | cleanup (now : Int) (s : Monitor) : Reachable lib s → Reachable lib (cleanupPass now s)

/-- Every binding of `activeLabels` is the one found by a lookup of its key, and its
labels are those of a `MonitoringData` whose hash is the key. -/
def CacheInv (lib : Lib) (s : Monitor) : Prop :=
  ∀ p ∈ s.activeLabels.entries, s.activeLabels.get p.1 = some p.2 ∧
    ∃ md, lib.Hash md = .ok p.1 ∧ p.2.Labels = promLabels md

/-- The label set `processPacket` builds for a packet, when it carries both layers. -/
def labelSet (lib : Lib) (packet : Packet) (hostname device : String) : Option Labels :=
  match packet.ethernetLayer, packet.arpLayer with
  | some ethernetPacket, some arpPacket =>
    some (promLabels (monitoringData lib ethernetPacket arpPacket hostname device))
  | _, _ => none

/-- The hash `processPacket` computes for a packet, when it carries both layers and the
hash succeeds. -/
def fingerprint (lib : Lib) (packet : Packet) (hostname device : String) : Option Nat :=
  match packet.ethernetLayer, packet.arpLayer with
  | some ethernetPacket, some arpPacket =>
    match lib.Hash (monitoringData lib ethernetPacket arpPacket hostname device) with
    | .ok hashValue => some hashValue
    | .error _ => none
  | _, _ => none

/-- The packets received by the loop of `RunForever`, processed in order; each comes
with the instant of its cache store. -/
def processPackets (lib : Lib) (hostname device : String) (frames : List (Int × Packet))
    (s : Monitor) : Monitor :=
  frames.foldl (fun st f => processPacket lib f.1 f.2 hostname device st) s

/-- Decimal numeral of a natural number, most significant digit first. -/
def decimal (n : Nat) : String :=
  if n = 0 then "0" else String.mk ((Nat.digits 10 n).reverse.map Nat.digitChar)

/-- The operation kind of the data model: code 1 is `Request`, code 2 is `Reply`, and
any other code is `Unknown (code)` with the code as a decimal numeral. -/
def specOpType (code : Nat) : String :=
  if code = 1 then "Request"
  else if code = 2 then "Reply"
  else "Unknown (" ++ decimal code ++ ")"

/-- The nine fields of the data model for a frame with Ethernet header `eth` and ARP
header `arp`, seen on `device` of node `hostname`. -/
def frameFields (lib : Lib) (eth : Ethernet) (arp : ARP) (hostname device : String) :
    MonitoringData :=
  { Node := hostname
    Device := device
    SrcMac := lib.macString eth.SrcMAC
    DstMac := lib.macString eth.DstMAC
    SenderMac := lib.macString arp.SourceHwAddress
    SenderIP := lib.ipString arp.SourceProtAddress
    TargetMac := lib.macString arp.DstHwAddress
    TargetIP := lib.ipString arp.DstProtAddress
    OpType := specOpType arp.Operation }

/-- The label set of the data model for a frame: the nine named values, each taken from
the frame, the node or the device. -/
def frameLabels (lib : Lib) (eth : Ethernet) (arp : ARP) (hostname device : String) :
    Labels :=
  [("node", hostname), ("device", device), ("src_mac", lib.macString eth.SrcMAC),
   ("dst_mac", lib.macString eth.DstMAC),
   ("sender_mac", lib.macString arp.SourceHwAddress),
   ("sender_ip", lib.ipString arp.SourceProtAddress),
   ("target_mac", lib.macString arp.DstHwAddress),
   ("target_ip", lib.ipString arp.DstProtAddress),
   ("op_type", specOpType arp.Operation)]

/-- The link-layer header of a gratuitous ARP announcement sent from hardware address
`m`: source `m`, destination broadcast, EtherType ARP (`0x0806`). -/
def garpEthernet (m : List Nat) : Ethernet :=
  { SrcMAC := m
    DstMAC := [0xff, 0xff, 0xff, 0xff, 0xff, 0xff]
    EthernetType := 0x0806 }

/-- The ARP payload of a gratuitous announcement of the 4-byte address `ip4` by hardware
address `m`: hardware type Ethernet (1), protocol type IPv4 (`0x0800`), sizes 6 and 4,
operation Reply (2), sender `m` and `ip4`, target all zeros and `ip4`. -/
def garpARP (m ip4 : List Nat) : ARP :=
  { AddrType := 1
    Protocol := 0x0800
    HwAddressSize := 6
    ProtAddressSize := 4
    Operation := 2
    SourceHwAddress := m
    SourceProtAddress := ip4
    DstHwAddress := [0, 0, 0, 0, 0, 0]
    DstProtAddress := ip4 }

/-! ## Lemmas on maps -/

namespace GoMap

variable {K V : Type} [DecidableEq K]

theorem lookup_erase (l : List (K × V)) (k k2 : K) :
    lookup (erase l k) k2 = if k2 = k then none else lookup l k2 := by
  induction l with
  | nil => simp [lookup, erase]
  | cons p rest ih =>
    obtain ⟨a, v⟩ := p
    by_cases hak : a = k
    · by_cases h2 : k2 = k
      · subst h2
        simpa [erase, lookup, hak] using ih
      · have h3 : ¬ k = k2 := fun h => h2 h.symm
        simp [erase, lookup, ih, hak, h2, h3]
    · by_cases h2 : k2 = k
      · subst h2
        simpa [erase, lookup, hak] using ih
      · simp [erase, lookup, ih, hak, h2]

theorem get_set_self (m : GoMap K V) (k : K) (v : V) : (m.set k v).get k = some v := by
  simp [get, set, lookup]

theorem get_set_ne (m : GoMap K V) (k k2 : K) (v : V) (h : k2 ≠ k) :
    (m.set k v).get k2 = m.get k2 := by
  have h3 : ¬ k = k2 := fun e => h e.symm
  simp [get, set, lookup, lookup_erase, h, h3]

theorem get_delete_self (m : GoMap K V) (k : K) : (m.delete k).get k = none := by
  simp [get, delete, lookup_erase]

theorem get_delete_ne (m : GoMap K V) (k k2 : K) (h : k2 ≠ k) :
    (m.delete k).get k2 = m.get k2 := by
  simp [get, delete, lookup_erase, h]

theorem mem_of_lookup (l : List (K × V)) (k : K) (v : V) (h : lookup l k = some v) :
    (k, v) ∈ l := by
  induction l with
  | nil => simp [lookup] at h
  | cons p rest ih =>
    obtain ⟨a, w⟩ := p
    by_cases hak : a = k
    · simp [lookup, hak] at h
      simp [hak, h]
    · simp [lookup, hak] at h
      exact List.mem_cons_of_mem _ (ih h)

theorem mem_erase (l : List (K × V)) (k : K) (p : K × V) (h : p ∈ erase l k) :
    p ∈ l ∧ p.1 ≠ k := by
  induction l with
  | nil => simp [erase] at h
  | cons q rest ih =>
    obtain ⟨a, w⟩ := q
    by_cases hak : a = k
    · simp only [erase, hak, if_true] at h
      exact ⟨List.mem_cons_of_mem _ (ih h).1, (ih h).2⟩
    · simp only [erase, hak, if_false, List.mem_cons] at h
      rcases h with h | h
      · subst h
        exact ⟨List.mem_cons_self _ _, hak⟩
      · exact ⟨List.mem_cons_of_mem _ (ih h).1, (ih h).2⟩

theorem erase_of_keys (l : List (K × V)) (k : K) (h : ∀ p ∈ l, p.1 = k) : erase l k = [] := by
  induction l with
  | nil => rfl
  | cons q rest ih =>
    obtain ⟨a, w⟩ := q
    have ha : a = k := h (a, w) (List.mem_cons_self _ _)
    simp only [erase, ha, if_true]
    exact ih (fun p hp => h p (List.mem_cons_of_mem _ hp))

theorem set_entries_of_keys (m : GoMap K V) (k : K) (v : V)
    (h : ∀ p ∈ m.entries, p.1 = k) : (m.set k v).entries = [(k, v)] := by
  simp [set, erase_of_keys m.entries k h]

end GoMap

/-! ## Lemmas on the cleanup pass -/

theorem Since_gt_iff (now t : Int) : Since now t > 10 * Minute ↔ now - t > 10 * Minute := by
  unfold Since Sub maxDuration minDuration Minute
  norm_num
  split_ifs <;> omega

theorem cleanupEntry_quiet_activeLabels (s : Monitor) (k : Nat) (now : Int) :
    (cleanupEntry s { key := k, now := now, before := [], between := [] }).activeLabels = s.activeLabels := by
  unfold cleanupEntry
  split
  · rfl
  · split_ifs <;> rfl

theorem cleanupEntry_quiet_get_other (s : Monitor) (k : Nat) (now : Int) (L : Labels)
    (h : ∀ e, s.activeLabels.get k = some e → Since now e.LastTime > 10 * Minute →
      e.Labels ≠ L) :
    (cleanupEntry s { key := k, now := now, before := [], between := [] }).totalArpPackets.get L =
      s.totalArpPackets.get L := by
  unfold cleanupEntry
  split
  · rfl
  · rename_i entry he
    split_ifs with hs
    · exact GoMap.get_delete_ne _ _ _ (fun e => h entry he hs e.symm)
    · rfl

theorem cleanupEntry_quiet_get_none (s : Monitor) (k : Nat) (now : Int) (L : Labels)
    (h : s.totalArpPackets.get L = none) :
    (cleanupEntry s { key := k, now := now, before := [], between := [] }).totalArpPackets.get L = none := by
  unfold cleanupEntry
  split
  · exact h
  · rename_i entry he
    split_ifs with hs
    · by_cases hL : L = entry.Labels
      · rw [hL]
        exact GoMap.get_delete_self _ _
      · simp only [List.foldl_nil]
        rw [GoMap.get_delete_ne _ _ _ hL]
        exact h
    · exact h

theorem cleanupSweep_quiet_activeLabels (now : Int) (l : List (Nat × LabelEntry))
    (s : Monitor) : (cleanupSweep (quietSlots now l) s).activeLabels = s.activeLabels := by
  induction l generalizing s with
  | nil => rfl
  | cons p rest ih =>
    have hstep := cleanupEntry_quiet_activeLabels s p.1 now
    have hrest := ih (cleanupEntry s { key := p.1, now := now, before := [], between := [] })
    simp only [cleanupSweep, quietSlots, List.map_cons, List.foldl_cons] at hrest ⊢
    rw [hrest, hstep]

theorem cleanupSweep_quiet_get_other (now : Int) (l : List (Nat × LabelEntry))
    (s : Monitor) (L : Labels)
    (h : ∀ kv ∈ l, ∀ e, s.activeLabels.get kv.1 = some e →
      Since now e.LastTime > 10 * Minute → e.Labels ≠ L) :
    (cleanupSweep (quietSlots now l) s).totalArpPackets.get L = s.totalArpPackets.get L := by
  induction l generalizing s with
  | nil => rfl
  | cons p rest ih =>
    have hact := cleanupEntry_quiet_activeLabels s p.1 now
    have hstep := cleanupEntry_quiet_get_other s p.1 now L (h p (List.mem_cons_self _ _))
    have hrest := ih (cleanupEntry s { key := p.1, now := now, before := [], between := [] })
      (fun kv hkv e he => h kv (List.mem_cons_of_mem _ hkv) e (by rw [← hact]; exact he))
    simp only [cleanupSweep, quietSlots, List.map_cons, List.foldl_cons] at hrest ⊢
    rw [hrest, hstep]

theorem cleanupSweep_quiet_get_none (now : Int) (l : List (Nat × LabelEntry))
    (s : Monitor) (L : Labels) (h : s.totalArpPackets.get L = none) :
    (cleanupSweep (quietSlots now l) s).totalArpPackets.get L = none := by
  induction l generalizing s with
  | nil => exact h
  | cons p rest ih =>
    have hrest := ih (cleanupEntry s { key := p.1, now := now, before := [], between := [] })
      (cleanupEntry_quiet_get_none s p.1 now L h)
    simp only [cleanupSweep, quietSlots, List.map_cons, List.foldl_cons] at hrest ⊢
    exact hrest

theorem cleanupPass_activeLabels (now : Int) (s : Monitor) :
    (cleanupPass now s).activeLabels = s.activeLabels :=
  cleanupSweep_quiet_activeLabels now _ s

/-! ## The invariant of the label cache -/

theorem promLabels_injective : Function.Injective promLabels := by
  intro a b h
  cases a
  cases b
  simp only [promLabels, List.cons.injEq, Prod.mk.injEq, true_and, and_true] at h
  simp only [MonitoringData.mk.injEq]
  tauto

theorem CacheInv_processPacket (lib : Lib) (now : Int) (packet : Packet)
    (hostname device : String) (s : Monitor) (h : CacheInv lib s) :
    CacheInv lib (processPacket lib now packet hostname device s) := by
  unfold processPacket
  split
  · exact h
  · split
    · exact h
    · rename_i ethernetPacket _ arpPacket _
      simp only
      split
      · exact h
      · rename_i hashValue hh
        intro p hp
        simp only [GoMap.set, List.mem_cons] at hp
        rcases hp with hp | hp
        · subst hp
          exact ⟨GoMap.get_set_self _ _ _, _, hh, rfl⟩
        · have hm := GoMap.mem_erase _ _ _ hp
          refine ⟨?_, (h p hm.1).2⟩
          simp only
          rw [GoMap.get_set_ne _ _ _ _ hm.2]
          exact (h p hm.1).1

theorem CacheInv_of_Reachable (lib : Lib) (s : Monitor) (h : Reachable lib s) :
    CacheInv lib s := by
  induction h with
  | init => intro p hp; simp [Monitor.init, GoMap.empty] at hp
  | process now packet hostname device s _ ih =>
    exact CacheInv_processPacket lib now packet hostname device s ih
  | cleanup now s _ ih =>
    intro p hp
    rw [cleanupPass_activeLabels] at hp ⊢
    exact ih p hp

theorem CacheInv_labels_ne (lib : Lib) (s : Monitor) (h : CacheInv lib s) (k1 k2 : Nat)
    (e1 e2 : LabelEntry) (h1 : s.activeLabels.get k1 = some e1)
    (h2 : s.activeLabels.get k2 = some e2) (hne : k1 ≠ k2) : e1.Labels ≠ e2.Labels := by
  intro heq
  obtain ⟨_, md1, hh1, hl1⟩ := h (k1, e1) (GoMap.mem_of_lookup _ _ _ h1)
  obtain ⟨_, md2, hh2, hl2⟩ := h (k2, e2) (GoMap.mem_of_lookup _ _ _ h2)
  have hmd : md1 = md2 := promLabels_injective (by rw [← hl1, ← hl2]; exact heq)
  subst hmd
  simp only at hh1 hh2
  rw [hh1] at hh2
  exact hne (by injection hh2)

theorem cleanupPass_quiet_keeps_fresh_series (lib : Lib) (s : Monitor)
    (hs : Reachable lib s) (now : Int) (k : Nat) (e : LabelEntry)
    (hk : s.activeLabels.get k = some e) (hfresh : now - e.LastTime ≤ 10 * Minute) :
    (cleanupPass now s).activeLabels.get k = some e ∧
    (cleanupPass now s).totalArpPackets.get e.Labels = s.totalArpPackets.get e.Labels := by
  have inv := CacheInv_of_Reachable lib s hs
  refine ⟨by rw [cleanupPass_activeLabels]; exact hk, ?_⟩
  apply cleanupSweep_quiet_get_other
  intro kv _ e2 he2 hstale heq
  have hstale2 : now - e2.LastTime > 10 * Minute := (Since_gt_iff now _).mp hstale
  by_cases hkk : kv.1 = k
  · rw [hkk, hk] at he2
    have he : e = e2 := by injection he2
    rw [he] at hfresh
    omega
  · exact CacheInv_labels_ne lib s inv kv.1 k e2 e he2 hk hkk heq

/-! ## Lemmas on `processPacket` -/

theorem processPacket_of_layers (lib : Lib) (now : Int) (packet : Packet)
    (hostname device : String) (s : Monitor) (eth : Ethernet) (arp : ARP) (h : Nat)
    (he : packet.ethernetLayer = some eth) (ha : packet.arpLayer = some arp)
    (hh : lib.Hash (monitoringData lib eth arp hostname device) = .ok h) :
    processPacket lib now packet hostname device s =
      { totalArpPackets :=
          WithInc s.totalArpPackets (promLabels (monitoringData lib eth arp hostname device))
        activeLabels := s.activeLabels.set h
          { LastTime := now, Labels := promLabels (monitoringData lib eth arp hostname device) } } := by
  simp [processPacket, he, ha, hh]

theorem layers_of_labelSet (lib : Lib) (packet : Packet) (hostname device : String)
    (L : Labels) (hL : labelSet lib packet hostname device = some L) :
    ∃ eth arp, packet.ethernetLayer = some eth ∧ packet.arpLayer = some arp ∧
      promLabels (monitoringData lib eth arp hostname device) = L := by
  unfold labelSet at hL
  split at hL
  · rename_i eth arp he ha
    exact ⟨eth, arp, he, ha, by injection hL⟩
  · simp at hL

theorem fingerprint_of_layers (lib : Lib) (packet : Packet) (hostname device : String)
    (eth : Ethernet) (arp : ARP) (he : packet.ethernetLayer = some eth)
    (ha : packet.arpLayer = some arp) :
    fingerprint lib packet hostname device =
      match lib.Hash (monitoringData lib eth arp hostname device) with
      | .ok hashValue => some hashValue
      | .error _ => none := by
  simp [fingerprint, he, ha]

theorem fingerprint_of_labelSet_eq (lib : Lib) (p1 p2 : Packet)
    (host1 dev1 host2 dev2 : String)
    (h : labelSet lib p1 host1 dev1 = labelSet lib p2 host2 dev2) :
    fingerprint lib p1 host1 dev1 = fingerprint lib p2 host2 dev2 := by
  cases he1 : p1.ethernetLayer with
  | none =>
    have h1 : labelSet lib p1 host1 dev1 = none := by simp [labelSet, he1]
    rw [h1] at h
    have f1 : fingerprint lib p1 host1 dev1 = none := by simp [fingerprint, he1]
    cases he2 : p2.ethernetLayer with
    | none => simp [fingerprint, he1, he2]
    | some e2 =>
      cases ha2 : p2.arpLayer with
      | none => simp [fingerprint, he1, he2, ha2]
      | some a2 => simp [labelSet, he2, ha2] at h
  | some e1 =>
    cases ha1 : p1.arpLayer with
    | none =>
      have h1 : labelSet lib p1 host1 dev1 = none := by simp [labelSet, he1, ha1]
      rw [h1] at h
      cases he2 : p2.ethernetLayer with
      | none => simp [fingerprint, he1, ha1, he2]
      | some e2 =>
        cases ha2 : p2.arpLayer with
        | none => simp [fingerprint, he1, ha1, he2, ha2]
        | some a2 => simp [labelSet, he2, ha2] at h
    | some a1 =>
      have h1 : labelSet lib p1 host1 dev1 =
          some (promLabels (monitoringData lib e1 a1 host1 dev1)) := by
        simp [labelSet, he1, ha1]
      rw [h1] at h
      obtain ⟨e2, a2, he2, ha2, hl⟩ := layers_of_labelSet lib p2 host2 dev2 _ h.symm
      have hmd := promLabels_injective hl
      rw [fingerprint_of_layers lib p1 host1 dev1 e1 a1 he1 ha1,
        fingerprint_of_layers lib p2 host2 dev2 e2 a2 he2 ha2, hmd]

theorem processPacket_step (lib : Lib) (now : Int) (packet : Packet)
    (hostname device : String) (s : Monitor) (L : Labels) (h : Nat)
    (hL : labelSet lib packet hostname device = some L)
    (hh : fingerprint lib packet hostname device = some h) :
    processPacket lib now packet hostname device s =
      { totalArpPackets := WithInc s.totalArpPackets L
        activeLabels := s.activeLabels.set h { LastTime := now, Labels := L } } := by
  obtain ⟨eth, arp, he, ha, hl⟩ := layers_of_labelSet lib packet hostname device L hL
  rw [fingerprint_of_layers lib packet hostname device eth arp he ha] at hh
  split at hh
  · rename_i hashValue hk
    have hk2 : lib.Hash (monitoringData lib eth arp hostname device) = .ok h := by
      rw [hk]; congr 1; injection hh
    rw [processPacket_of_layers lib now packet hostname device s eth arp h he ha hk2, hl]
  · simp at hh

theorem WithInc_get_self (vec : GoMap Labels Nat) (L : Labels) :
    (WithInc vec L).get L = some ((vec.get L).getD 0 + 1) :=
  GoMap.get_set_self _ _ _

theorem WithInc_get_ne (vec : GoMap Labels Nat) (L L2 : Labels) (h : L2 ≠ L) :
    (WithInc vec L).get L2 = vec.get L2 :=
  GoMap.get_set_ne _ _ _ _ h

theorem processPackets_same (lib : Lib) (hostname device : String) (L : Labels) (h : Nat)
    (frames : List (Int × Packet)) (last : Int × Packet) (s : Monitor)
    (hf : ∀ f ∈ frames ++ [last], labelSet lib f.2 hostname device = some L ∧
      fingerprint lib f.2 hostname device = some h) :
    (processPackets lib hostname device (frames ++ [last]) s).totalArpPackets.get L =
        some ((s.totalArpPackets.get L).getD 0 + (frames.length + 1)) ∧
    (∀ L2, L2 ≠ L →
      (processPackets lib hostname device (frames ++ [last]) s).totalArpPackets.get L2 =
        s.totalArpPackets.get L2) ∧
    (processPackets lib hostname device (frames ++ [last]) s).activeLabels.get h =
        some { LastTime := last.1, Labels := L } ∧
    (∀ k, k ≠ h →
      (processPackets lib hostname device (frames ++ [last]) s).activeLabels.get k =
        s.activeLabels.get k) ∧
    ((∀ p ∈ s.activeLabels.entries, p.1 = h) →
      (processPackets lib hostname device (frames ++ [last]) s).activeLabels.entries =
        [(h, { LastTime := last.1, Labels := L })]) := by
  induction frames generalizing s with
  | nil =>
    have hl := hf last (by simp)
    simp only [List.nil_append, processPackets, List.foldl_cons, List.foldl_nil,
      List.length_nil, Nat.zero_add]
    rw [processPacket_step lib last.1 last.2 hostname device s L h hl.1 hl.2]
    exact ⟨WithInc_get_self _ _, fun L2 h2 => WithInc_get_ne _ _ _ h2,
      GoMap.get_set_self _ _ _, fun k hk => GoMap.get_set_ne _ _ _ _ hk,
      fun hp => GoMap.set_entries_of_keys _ _ _ hp⟩
  | cons f rest ih =>
    have hfst := hf f (by simp)
    have hrest : ∀ g ∈ rest ++ [last], labelSet lib g.2 hostname device = some L ∧
        fingerprint lib g.2 hostname device = some h :=
      fun g hg => hf g (by simp only [List.cons_append, List.mem_cons]; exact Or.inr hg)
    have step := processPacket_step lib f.1 f.2 hostname device s L h hfst.1 hfst.2
    have hfold : processPackets lib hostname device (f :: rest ++ [last]) s =
        processPackets lib hostname device (rest ++ [last])
          (processPacket lib f.1 f.2 hostname device s) := by
      simp [processPackets]
    obtain ⟨i1, i2, i3, i4, i5⟩ := ih (processPacket lib f.1 f.2 hostname device s) hrest
    rw [hfold]
    refine ⟨?_, ?_, i3, ?_, ?_⟩
    · rw [i1, step]
      simp only [WithInc_get_self, Option.getD_some, List.length_cons]
      congr 1
      omega
    · intro L2 h2
      rw [i2 L2 h2, step]
      exact WithInc_get_ne _ _ _ h2
    · intro k hk
      rw [i4 k hk, step]
      exact GoMap.get_set_ne _ _ _ _ hk
    · intro hp
      apply i5
      rw [step]
      intro p hpm
      rw [GoMap.set_entries_of_keys _ _ _ hp] at hpm
      simp only [List.mem_singleton] at hpm
      rw [hpm]

/-! ## Decimal numerals -/

theorem toDigitsCore_eq_digits (fuel : Nat) : ∀ (n : Nat) (ds : List Char), n < fuel → 0 < n →
    Nat.toDigitsCore 10 fuel n ds = (Nat.digits 10 n).reverse.map Nat.digitChar ++ ds := by
  induction fuel with
  | zero => intro n ds h; omega
  | succ fuel ih =>
    intro n ds hlt hpos
    have hd : Nat.digits 10 n = n % 10 :: Nat.digits 10 (n / 10) :=
      Nat.digits_def' (by norm_num) hpos
    simp only [Nat.toDigitsCore]
    by_cases hq : n / 10 = 0
    · simp [hq, hd]
    · have hq1 : 0 < n / 10 := Nat.pos_of_ne_zero hq
      have hq2 : n / 10 < fuel := by omega
      rw [if_neg hq, ih (n / 10) _ hq2 hq1, hd]
      simp

theorem toString_eq_decimal (n : Nat) : toString n = decimal n := by
  show Nat.repr n = decimal n
  unfold decimal
  by_cases h : n = 0
  · subst h
    rfl
  · rw [if_neg h]
    simp only [Nat.repr, Nat.toDigits]
    rw [toDigitsCore_eq_digits (n + 1) n [] (by omega) (Nat.pos_of_ne_zero h)]
    simp [List.asString]

theorem digitChar_injective_lt (a b : Nat) (ha : a < 10) (hb : b < 10)
    (h : Nat.digitChar a = Nat.digitChar b) : a = b := by
  interval_cases a <;> interval_cases b <;> first | rfl | (exfalso; revert h; decide)

theorem map_digitChar_injective : ∀ (l1 l2 : List Nat), (∀ d ∈ l1, d < 10) →
    (∀ d ∈ l2, d < 10) → l1.map Nat.digitChar = l2.map Nat.digitChar → l1 = l2 := by
  intro l1
  induction l1 with
  | nil =>
    intro l2 _ _ h
    cases l2 with
    | nil => rfl
    | cons b t => simp at h
  | cons a t ih =>
    intro l2 h1 h2 h
    cases l2 with
    | nil => simp at h
    | cons b t2 =>
      simp only [List.map_cons, List.cons.injEq] at h
      have hab := digitChar_injective_lt a b (h1 a (List.mem_cons_self _ _))
        (h2 b (List.mem_cons_self _ _)) h.1
      have ht := ih t2 (fun d hd => h1 d (List.mem_cons_of_mem _ hd))
        (fun d hd => h2 d (List.mem_cons_of_mem _ hd)) h.2
      rw [hab, ht]

theorem decimal_data_pos (n : Nat) (h : n ≠ 0) :
    (decimal n).data = (Nat.digits 10 n).reverse.map Nat.digitChar := by
  simp [decimal, h]

theorem digits_reverse_lt (n : Nat) : ∀ d ∈ (Nat.digits 10 n).reverse, d < 10 := by
  intro d hd
  exact Nat.digits_lt_base (by norm_num) (List.mem_reverse.mp hd)

theorem decimal_zero_ne (n : Nat) (h : n ≠ 0) : decimal 0 ≠ decimal n := by
  intro heq
  have hdata := congrArg String.data heq
  rw [decimal_data_pos n h] at hdata
  have h0 : (decimal 0).data = [0].map Nat.digitChar := by decide
  rw [h0] at hdata
  have hl := map_digitChar_injective [0] _ (by simp) (digits_reverse_lt n) hdata
  have hdig : Nat.digits 10 n = [0] := by
    have := congrArg List.reverse hl
    simpa using this.symm
  have hn := Nat.ofDigits_digits 10 n
  rw [hdig] at hn
  simp at hn
  exact h hn.symm

theorem decimal_injective : Function.Injective decimal := by
  intro a b h
  by_cases ha : a = 0
  · by_cases hb : b = 0
    · rw [ha, hb]
    · subst ha
      exact absurd h (decimal_zero_ne b hb)
  · by_cases hb : b = 0
    · subst hb
      exact absurd h.symm (decimal_zero_ne a ha)
    · have hdata := congrArg String.data h
      rw [decimal_data_pos a ha, decimal_data_pos b hb] at hdata
      have hl := map_digitChar_injective _ _ (digits_reverse_lt a) (digits_reverse_lt b) hdata
      exact Nat.digits_inj_iff.mp (List.reverse_injective hl)

/-! ## Lemmas on `opType` and on the injection path -/

theorem opType_unknown (c : Nat) (h1 : c ≠ 1) (h2 : c ≠ 2) :
    opType c = "Unknown (" ++ decimal c ++ ")" := by
  unfold opType ARPRequest ARPReply
  rw [if_neg h1, if_neg h2, toString_eq_decimal]

theorem unknown_data (x : String) :
    ("Unknown (" ++ x ++ ")").data = "Unknown (".data ++ (x.data ++ ")".data) := by
  simp [String.data_append]

theorem unknown_ne_request (x : String) : "Unknown (" ++ x ++ ")" ≠ "Request" := by
  intro h
  have hd := congrArg String.data h
  rw [unknown_data] at hd
  simp at hd

theorem unknown_ne_reply (x : String) : "Unknown (" ++ x ++ ")" ≠ "Reply" := by
  intro h
  have hd := congrArg String.data h
  rw [unknown_data] at hd
  simp at hd

theorem unknown_injective (x y : String) (h : "Unknown (" ++ x ++ ")" = "Unknown (" ++ y ++ ")") :
    x = y := by
  have hd := congrArg String.data h
  rw [unknown_data, unknown_data] at hd
  have h1 := List.append_cancel_right (List.append_cancel_left hd)
  exact String.ext h1

theorem opType_injective : Function.Injective opType := by
  intro a b h
  by_cases ha1 : a = 1
  · by_cases hb1 : b = 1
    · rw [ha1, hb1]
    · by_cases hb2 : b = 2
      · subst ha1 hb2
        revert h
        decide
      · subst ha1
        rw [opType_unknown b hb1 hb2] at h
        exact absurd h.symm (unknown_ne_request _)
  · by_cases ha2 : a = 2
    · by_cases hb1 : b = 1
      · subst ha2 hb1
        revert h
        decide
      · by_cases hb2 : b = 2
        · rw [ha2, hb2]
        · subst ha2
          rw [opType_unknown b hb1 hb2] at h
          exact absurd h.symm (unknown_ne_reply _)
    · rw [opType_unknown a ha1 ha2] at h
      by_cases hb1 : b = 1
      · subst hb1
        exact absurd h (unknown_ne_request _)
      · by_cases hb2 : b = 2
        · subst hb2
          exact absurd h (unknown_ne_reply _)
        · rw [opType_unknown b hb1 hb2] at h
          exact decimal_injective (unknown_injective _ _ h)

theorem To4_of_ipv4_form (ip : List Nat)
    (hip : ip.length = 4 ∨
      (ip.length = 16 ∧ ip.take 12 = [0, 0, 0, 0, 0, 0, 0, 0, 0, 0, 0xff, 0xff])) :
    To4 ip = some (ip.drop (ip.length - 4)) ∧ (ip.drop (ip.length - 4)).length = 4 := by
  rcases hip with h4 | ⟨h16, htake⟩
  · simp [To4, h4]
  · have hsplit : ip = [0, 0, 0, 0, 0, 0, 0, 0, 0, 0, 0xff, 0xff] ++ ip.drop 12 := by
      rw [← htake]
      exact (List.take_append_drop 12 ip).symm
    have h10 : ip.take 10 = List.replicate 10 0 := by
      rw [hsplit]
      rfl
    have hg10 : ip.getD 10 0 = 0xff := by
      rw [hsplit]
      rfl
    have hg11 : ip.getD 11 0 = 0xff := by
      rw [hsplit]
      rfl
    have hne : ¬ ip.length = 4 := by omega
    unfold To4
    rw [if_neg hne, if_pos ⟨h16, h10, hg10, hg11⟩, h16]
    simp [h16]

/-! ## The code against the data model of a frame -/

theorem opType_eq_specOpType (c : Nat) : opType c = specOpType c := by
  unfold opType specOpType ARPRequest ARPReply
  rw [toString_eq_decimal]

theorem specOpType_injective : Function.Injective specOpType := by
  intro a b h
  rw [← opType_eq_specOpType, ← opType_eq_specOpType] at h
  exact opType_injective h

theorem monitoringData_eq_frameFields (lib : Lib) (eth : Ethernet) (arp : ARP)
    (hostname device : String) :
    monitoringData lib eth arp hostname device = frameFields lib eth arp hostname device := by
  simp [monitoringData, frameFields, opType_eq_specOpType]

theorem promLabels_frameFields (lib : Lib) (eth : Ethernet) (arp : ARP)
    (hostname device : String) :
    promLabels (frameFields lib eth arp hostname device) =
      frameLabels lib eth arp hostname device := rfl

theorem labelSet_of_frame (lib : Lib) (packet : Packet) (hostname device : String)
    (eth : Ethernet) (arp : ARP) (he : packet.ethernetLayer = some eth)
    (ha : packet.arpLayer = some arp) :
    labelSet lib packet hostname device = some (frameLabels lib eth arp hostname device) := by
  simp [labelSet, he, ha, monitoringData_eq_frameFields, promLabels_frameFields]

theorem fingerprint_of_frame (lib : Lib) (packet : Packet) (hostname device : String)
    (eth : Ethernet) (arp : ARP) (h : Nat) (he : packet.ethernetLayer = some eth)
    (ha : packet.arpLayer = some arp)
    (hh : lib.Hash (frameFields lib eth arp hostname device) = .ok h) :
    fingerprint lib packet hostname device = some h := by
  rw [fingerprint_of_layers lib packet hostname device eth arp he ha,
    monitoringData_eq_frameFields, hh]

theorem frameFields_of_frameLabels (lib : Lib) (eth eth2 : Ethernet) (arp arp2 : ARP)
    (hostname device hostname2 device2 : String)
    (h : frameLabels lib eth2 arp2 hostname2 device2 = frameLabels lib eth arp hostname device) :
    frameFields lib eth2 arp2 hostname2 device2 = frameFields lib eth arp hostname device :=
  promLabels_injective (by rw [promLabels_frameFields, promLabels_frameFields]; exact h)

theorem lookup_op_type (lib : Lib) (eth : Ethernet) (arp : ARP) (hostname device : String) :
    GoMap.lookup (frameLabels lib eth arp hostname device) "op_type" =
      some (specOpType arp.Operation) := by
  simp [frameLabels, GoMap.lookup]

theorem processPacket_of_frame (lib : Lib) (now : Int) (packet : Packet)
    (hostname device : String) (s : Monitor) (eth : Ethernet) (arp : ARP) (h : Nat)
    (he : packet.ethernetLayer = some eth) (ha : packet.arpLayer = some arp)
    (hh : lib.Hash (frameFields lib eth arp hostname device) = .ok h) :
    processPacket lib now packet hostname device s =
      { totalArpPackets := WithInc s.totalArpPackets (frameLabels lib eth arp hostname device)
        activeLabels := s.activeLabels.set h
          { LastTime := now, Labels := frameLabels lib eth arp hostname device } } :=
  processPacket_step lib now packet hostname device s _ h
    (labelSet_of_frame lib packet hostname device eth arp he ha)
    (fingerprint_of_frame lib packet hostname device eth arp h he ha hh)

/-! ## The claims -/

set_option maxRecDepth 100000

/-- C1, the code at a failing input: the cache holds one entry, last seen at instant 0,
and a pass runs eleven minutes later. The pass deletes the series of the entry from the
counter vector, and the entry itself is still in `activeLabels` afterwards. -/
theorem cleanupPass_keeps_stale_entry :
    exampleState.activeLabels.get exampleFingerprint = some ⟨0, exampleLabels⟩ ∧
    exampleState.totalArpPackets.get exampleLabels = some 1 ∧
    11 * Minute - 0 > 10 * Minute ∧
    (cleanupPass (11 * Minute) exampleState).totalArpPackets.get exampleLabels = none ∧
    (cleanupPass (11 * Minute) exampleState).activeLabels.get exampleFingerprint =
      some ⟨0, exampleLabels⟩ := by
  decide

/-- C2: for a packet with Ethernet header `eth` and ARP header `arp` whose hash
succeeds, `processPacket` raises by one the count of the series keyed by the nine
labels of the frame (node, device, the two link-layer addresses, sender and target
addresses and the operation kind), creating it at 1 when absent, leaves the other
series alone, and stores these labels with the current instant under the hash; a
packet with the same nine labels has the same hash and is stored under it, so a run of
`n` such packets adds `n` to that one series and leaves one cache entry under that
hash. -/
theorem processPacket_counts_one_series (lib : Lib) (hostname device : String)
    (packet : Packet) (eth : Ethernet) (arp : ARP) (h : Nat)
    (he : packet.ethernetLayer = some eth) (ha : packet.arpLayer = some arp)
    (hh : lib.Hash (frameFields lib eth arp hostname device) = .ok h) :
    (∀ (now : Int) (s : Monitor),
      (processPacket lib now packet hostname device s).totalArpPackets.get
          (frameLabels lib eth arp hostname device) =
        some ((s.totalArpPackets.get (frameLabels lib eth arp hostname device)).getD 0 + 1) ∧
      (∀ L2, L2 ≠ frameLabels lib eth arp hostname device →
        (processPacket lib now packet hostname device s).totalArpPackets.get L2 =
          s.totalArpPackets.get L2) ∧
      (processPacket lib now packet hostname device s).activeLabels.get h =
        some { LastTime := now, Labels := frameLabels lib eth arp hostname device } ∧
      (∀ k, k ≠ h →
        (processPacket lib now packet hostname device s).activeLabels.get k =
          s.activeLabels.get k)) ∧
    (∀ (packet2 : Packet) (eth2 : Ethernet) (arp2 : ARP) (hostname2 device2 : String),
      packet2.ethernetLayer = some eth2 → packet2.arpLayer = some arp2 →
      frameLabels lib eth2 arp2 hostname2 device2 = frameLabels lib eth arp hostname device →
        lib.Hash (frameFields lib eth2 arp2 hostname2 device2) = .ok h ∧
        ∀ (now : Int) (s : Monitor),
          (processPacket lib now packet2 hostname2 device2 s).activeLabels.get h =
            some { LastTime := now, Labels := frameLabels lib eth arp hostname device }) ∧
    (∀ (frames : List (Int × Packet)) (last : Int × Packet) (s : Monitor),
      (∀ f ∈ frames ++ [last], ∃ eth2 arp2, f.2.ethernetLayer = some eth2 ∧
        f.2.arpLayer = some arp2 ∧
        frameLabels lib eth2 arp2 hostname device = frameLabels lib eth arp hostname device) →
      (processPackets lib hostname device (frames ++ [last]) s).totalArpPackets.get
          (frameLabels lib eth arp hostname device) =
        some ((s.totalArpPackets.get (frameLabels lib eth arp hostname device)).getD 0 +
          (frames.length + 1)) ∧
      (∀ L2, L2 ≠ frameLabels lib eth arp hostname device →
        (processPackets lib hostname device (frames ++ [last]) s).totalArpPackets.get L2 =
          s.totalArpPackets.get L2) ∧
      (processPackets lib hostname device (frames ++ [last]) s).activeLabels.get h =
        some { LastTime := last.1, Labels := frameLabels lib eth arp hostname device } ∧
      (∀ k, k ≠ h →
        (processPackets lib hostname device (frames ++ [last]) s).activeLabels.get k =
          s.activeLabels.get k) ∧
      ((∀ p ∈ s.activeLabels.entries, p.1 = h) →
        (processPackets lib hostname device (frames ++ [last]) s).activeLabels.size = 1)) := by
  have hsame : ∀ (packet2 : Packet) (eth2 : Ethernet) (arp2 : ARP)
      (hostname2 device2 : String), packet2.ethernetLayer = some eth2 →
      packet2.arpLayer = some arp2 →
      frameLabels lib eth2 arp2 hostname2 device2 = frameLabels lib eth arp hostname device →
      lib.Hash (frameFields lib eth2 arp2 hostname2 device2) = .ok h := by
    intro packet2 eth2 arp2 hostname2 device2 _ _ hl
    rw [frameFields_of_frameLabels lib eth eth2 arp arp2 hostname device hostname2 device2 hl]
    exact hh
  refine ⟨?_, ?_, ?_⟩
  · intro now s
    rw [processPacket_of_frame lib now packet hostname device s eth arp h he ha hh]
    exact ⟨WithInc_get_self _ _, fun L2 h2 => WithInc_get_ne _ _ _ h2,
      GoMap.get_set_self _ _ _, fun k hk => GoMap.get_set_ne _ _ _ _ hk⟩
  · intro packet2 eth2 arp2 hostname2 device2 he2 ha2 hl
    have hh2 := hsame packet2 eth2 arp2 hostname2 device2 he2 ha2 hl
    refine ⟨hh2, fun now s => ?_⟩
    rw [processPacket_of_frame lib now packet2 hostname2 device2 s eth2 arp2 h he2 ha2 hh2, hl]
    exact GoMap.get_set_self _ _ _
  · intro frames last s hf
    obtain ⟨i1, i2, i3, i4, i5⟩ := processPackets_same lib hostname device
      (frameLabels lib eth arp hostname device) h frames last s
      (fun f hfm => by
        obtain ⟨eth2, arp2, he2, ha2, hl⟩ := hf f hfm
        refine ⟨?_, ?_⟩
        · rw [labelSet_of_frame lib f.2 hostname device eth2 arp2 he2 ha2, hl]
        · exact fingerprint_of_frame lib f.2 hostname device eth2 arp2 h he2 ha2
            (hsame f.2 eth2 arp2 hostname device he2 ha2 hl))
    refine ⟨i1, i2, i3, i4, fun hp => ?_⟩
    simp [GoMap.size, i5 hp]

/-- Witness of C2: `examplePacket` on host `host`, device `eth0`, with the example
library functions, received three times from the initial state. -/
theorem processPacket_counts_one_series_witness :
    exampleLib.Hash (frameFields exampleLib exampleEthernet exampleARP "host" "eth0") =
      .ok exampleFingerprint ∧
    frameLabels exampleLib exampleEthernet exampleARP "host" "eth0" = exampleLabels ∧
    (processPackets exampleLib "host" "eth0"
      ([(1, examplePacket), (2, examplePacket)] ++ [(3, examplePacket)])
      Monitor.init).totalArpPackets.get
        (frameLabels exampleLib exampleEthernet exampleARP "host" "eth0") =
      some ((Monitor.init.totalArpPackets.get
        (frameLabels exampleLib exampleEthernet exampleARP "host" "eth0")).getD 0 + (2 + 1)) :=
  ⟨by rfl, by decide,
    ((processPacket_counts_one_series exampleLib "host" "eth0" examplePacket exampleEthernet
      exampleARP exampleFingerprint rfl rfl (by rfl)).2.2
      [(1, examplePacket), (2, examplePacket)] (3, examplePacket) Monitor.init
      (by
        intro f hf
        have hp : f.2 = examplePacket := by
          simp only [List.cons_append, List.nil_append, List.mem_cons, List.mem_singleton,
            List.not_mem_nil, or_false] at hf
          rcases hf with hf | hf | hf <;> rw [hf]
        exact ⟨exampleEthernet, exampleARP, by rw [hp]; rfl, by rw [hp]; rfl, rfl⟩)).1⟩

/-- C6: a packet without an Ethernet layer or without an ARP layer leaves the counter
vector and `activeLabels` as they were; `processPacket` has no error result. -/
theorem processPacket_skips_without_layers (lib : Lib) (now : Int) (packet : Packet)
    (hostname device : String) (s : Monitor)
    (h : packet.ethernetLayer = none ∨ packet.arpLayer = none) :
    processPacket lib now packet hostname device s = s := by
  unfold processPacket
  rcases h with h | h
  · rw [h]
  · rw [h]
    cases packet.ethernetLayer <;> rfl

/-- Witness of C6: an Ethernet frame that carries no ARP layer, delivered to the state
that holds one series. -/
theorem processPacket_skips_without_layers_witness :
    (exampleNonArpPacket.ethernetLayer = none ∨ exampleNonArpPacket.arpLayer = none) ∧
    processPacket exampleLib 7 exampleNonArpPacket "host" "eth0" exampleState = exampleState :=
  ⟨by decide,
    processPacket_skips_without_layers exampleLib 7 exampleNonArpPacket "host" "eth0"
      exampleState (by decide)⟩

/-- C7, the code at a failing input: the cache holds one entry, last seen at instant 0.
A cleanup pass tests it at the eleventh minute and finds it inactive; before the pass
obtains `mu`, `RunForever` processes a packet with the same labels, which raises the
count to 2 and refreshes the entry; the pass then deletes the series. Afterwards the
entry was last seen one nanosecond before, and its series is gone. -/
theorem cleanupSweep_deletes_refreshed_series :
    exampleState.activeLabels.get exampleFingerprint = some ⟨0, exampleLabels⟩ ∧
    exampleState.activeLabels.entries.map Prod.fst = [exampleSlot].map Slot.key ∧
    observe exampleState exampleObservation =
      processPacket exampleLib (11 * Minute + 1) examplePacket "host" "eth0" exampleState ∧
    (processPacket exampleLib (11 * Minute + 1) examplePacket "host" "eth0"
      exampleState).totalArpPackets.get exampleLabels = some 2 ∧
    (cleanupSweep [exampleSlot] exampleState).activeLabels.get exampleFingerprint =
      some ⟨11 * Minute + 1, exampleLabels⟩ ∧
    (11 * Minute + 2) - (11 * Minute + 1) ≤ 10 * Minute ∧
    (cleanupSweep [exampleSlot] exampleState).totalArpPackets.get exampleLabels = none :=
  ⟨by decide, by decide, by rfl, by decide, by decide, by decide, by decide⟩

/-- C8: for a packet with both layers whose hash succeeds, whatever its operation
code, `processPacket` counts the packet and stores its labels, and the `op_type` label
is `Request` for code 1, `Reply` for code 2 and otherwise `Unknown (c)` with the code
`c` as a decimal numeral; a packet with another operation code gets another `op_type`
label. -/
theorem processPacket_op_type (lib : Lib) (now : Int) (packet : Packet)
    (hostname device : String) (s : Monitor) (eth : Ethernet) (arp : ARP) (h : Nat)
    (he : packet.ethernetLayer = some eth) (ha : packet.arpLayer = some arp)
    (hh : lib.Hash (frameFields lib eth arp hostname device) = .ok h) :
    ∃ e, (processPacket lib now packet hostname device s).activeLabels.get h = some e ∧
      (processPacket lib now packet hostname device s).totalArpPackets.get e.Labels =
        some ((s.totalArpPackets.get e.Labels).getD 0 + 1) ∧
      (arp.Operation = 1 → GoMap.lookup e.Labels "op_type" = some "Request") ∧
      (arp.Operation = 2 → GoMap.lookup e.Labels "op_type" = some "Reply") ∧
      (arp.Operation ≠ 1 → arp.Operation ≠ 2 →
        GoMap.lookup e.Labels "op_type" =
          some ("Unknown (" ++ decimal arp.Operation ++ ")")) ∧
      (∀ (now2 : Int) (packet2 : Packet) (hostname2 device2 : String) (s2 : Monitor)
        (eth2 : Ethernet) (arp2 : ARP) (h2 : Nat),
        packet2.ethernetLayer = some eth2 → packet2.arpLayer = some arp2 →
        lib.Hash (frameFields lib eth2 arp2 hostname2 device2) = .ok h2 →
        arp2.Operation ≠ arp.Operation →
        ∃ e2, (processPacket lib now2 packet2 hostname2 device2 s2).activeLabels.get h2 =
            some e2 ∧
          GoMap.lookup e2.Labels "op_type" ≠ GoMap.lookup e.Labels "op_type") := by
  refine ⟨{ LastTime := now, Labels := frameLabels lib eth arp hostname device }, ?_, ?_,
    ?_, ?_, ?_, ?_⟩
  · rw [processPacket_of_frame lib now packet hostname device s eth arp h he ha hh]
    exact GoMap.get_set_self _ _ _
  · rw [processPacket_of_frame lib now packet hostname device s eth arp h he ha hh]
    exact WithInc_get_self _ _
  · intro h1
    simp only [lookup_op_type, h1]
    rfl
  · intro h2
    simp only [lookup_op_type, h2]
    rfl
  · intro h1 h2
    simp only [lookup_op_type, specOpType, h1, h2, if_false]
  · intro now2 packet2 hostname2 device2 s2 eth2 arp2 h2 he2 ha2 hh2 hne
    refine ⟨{ LastTime := now2, Labels := frameLabels lib eth2 arp2 hostname2 device2 }, ?_, ?_⟩
    · rw [processPacket_of_frame lib now2 packet2 hostname2 device2 s2 eth2 arp2 h2 he2 ha2 hh2]
      exact GoMap.get_set_self _ _ _
    · simp only [lookup_op_type]
      intro heq
      exact hne (specOpType_injective (Option.some.inj heq))

/-- Witness of C8: a packet like `examplePacket` with operation code 7, on host `host`,
device `eth0`, processed in the initial state. -/
theorem processPacket_op_type_witness :
    exampleLib.Hash (frameFields exampleLib exampleEthernet
      { exampleARP with Operation := 7 } "host" "eth0") = .ok 7658627480787526068 ∧
    ((processPacket exampleLib 0 (exampleOpPacket 7) "host" "eth0"
      Monitor.init).activeLabels.get 7658627480787526068).bind
        (fun e => GoMap.lookup e.Labels "op_type") = some "Unknown (7)" := by
  have hh : exampleLib.Hash (frameFields exampleLib exampleEthernet
      { exampleARP with Operation := 7 } "host" "eth0") = .ok 7658627480787526068 := by
    rw [← monitoringData_eq_frameFields]
    rfl
  obtain ⟨e, h1, _, _, _, h5, _⟩ := processPacket_op_type exampleLib 0 (exampleOpPacket 7)
    "host" "eth0" Monitor.init exampleEthernet { exampleARP with Operation := 7 }
    7658627480787526068 rfl rfl hh
  refine ⟨hh, ?_⟩
  rw [h1, Option.some_bind, h5 (by decide) (by decide), ← toString_eq_decimal]
  rfl

/-- C9, the code against the claim: one iteration of the loop of `RunForever` makes all
its accesses to `activeLabels` between `mu.Lock()` and `mu.Unlock()`, whereas a pass of
`cleanupInactiveLabels`, started without the lock, reads `activeLabels` while not
holding it, whatever the map holds. -/
theorem cleanup_reads_activeLabels_unlocked :
    (∀ (lib : Lib) (packet : Packet) (hostname device : String),
      accessesUnderLock false (RunForeverEvents lib packet hostname device) = true) ∧
    (∀ (now : Int) (entries : List (Nat × LabelEntry)),
      accessesUnderLock false (cleanupEvents now entries) = false) ∧
    accessesUnderLock false (cleanupEvents (11 * Minute) exampleState.activeLabels.entries)
      = false := by
  refine ⟨?_, ?_, by decide⟩
  · intro lib packet hostname device
    unfold RunForeverEvents processPacketEvents
    cases packet.ethernetLayer with
    | none => rfl
    | some eth =>
      cases packet.arpLayer with
      | none => rfl
      | some arp =>
        simp only
        cases lib.Hash (monitoringData lib eth arp hostname device) <;> rfl
  · intro now entries
    cases entries <;> simp [cleanupEvents, accessesUnderLock]

/-- C3: for an address in 4-byte form or in 16-byte IPv4-mapped form and an interface
with a 6-byte hardware address `m`, `sendGratuitousARP` hands to the serialiser an
Ethernet layer from `m` to the broadcast address with EtherType ARP, and an ARP layer of
hardware type Ethernet, protocol type IPv4, sizes 6 and 4, operation Reply, sender
hardware address `m`, target hardware address all zeros, and the 4-byte form of the
address as both sender and target protocol address. When the serialiser fails, or no
handle is open, it returns the matching error and writes nothing; when the serialiser
gives a buffer and a handle is open, that buffer and nothing else is passed to
`WritePacketData`, whose error, if any, is returned wrapped. -/
theorem sendGratuitousARP_builds_garp (lib : Lib) (pcapHandle : Option Handle)
    (ip : List Nat) (iface : Interface)
    (hip : ip.length = 4 ∨
      (ip.length = 16 ∧ ip.take 12 = [0, 0, 0, 0, 0, 0, 0, 0, 0, 0, 0xff, 0xff]))
    (hmac : iface.HardwareAddr.length = 6) :
    (ip.drop (ip.length - 4)).length = 4 ∧
    (sendGratuitousARP lib pcapHandle ip iface).layers =
      some (garpEthernet iface.HardwareAddr,
        garpARP iface.HardwareAddr (ip.drop (ip.length - 4))) ∧
    (∀ e, lib.SerializeLayers (garpEthernet iface.HardwareAddr)
        (garpARP iface.HardwareAddr (ip.drop (ip.length - 4))) = .error e →
      (sendGratuitousARP lib pcapHandle ip iface).err =
        some ("Error serializing layers: " ++ e) ∧
      (sendGratuitousARP lib pcapHandle ip iface).writes = []) ∧
    (∀ buffer, lib.SerializeLayers (garpEthernet iface.HardwareAddr)
        (garpARP iface.HardwareAddr (ip.drop (ip.length - 4))) = .ok buffer →
      (pcapHandle = none →
        (sendGratuitousARP lib pcapHandle ip iface).err =
          some "Could not get a handle to pcap..." ∧
        (sendGratuitousARP lib pcapHandle ip iface).writes = []) ∧
      (∀ handle, pcapHandle = some handle →
        (sendGratuitousARP lib pcapHandle ip iface).writes = [buffer] ∧
        (sendGratuitousARP lib pcapHandle ip iface).err =
          (handle.WritePacketData buffer).map (fun e => "error injecting packet: " ++ e))) := by
  obtain ⟨h4, hlen⟩ := To4_of_ipv4_form ip hip
  have hlayers : ∀ (m ip4 : List Nat), m.length = 6 → ip4.length = 4 →
      (({ SrcMAC := m, DstMAC := [0xff, 0xff, 0xff, 0xff, 0xff, 0xff],
          EthernetType := EthernetTypeARP } : Ethernet) = garpEthernet m) ∧
      (({ AddrType := LinkTypeEthernet, Protocol := EthernetTypeIPv4,
          HwAddressSize := m.length % 256, ProtAddressSize := ip4.length % 256,
          Operation := ARPReply, SourceHwAddress := m, SourceProtAddress := ip4,
          DstHwAddress := [0x00, 0x00, 0x00, 0x00, 0x00, 0x00],
          DstProtAddress := ip4 } : ARP) = garpARP m ip4) := by
    intro m ip4 hm hi
    rw [hm, hi]
    exact ⟨rfl, rfl⟩
  obtain ⟨heth, harp⟩ := hlayers iface.HardwareAddr _ hmac hlen
  have hrun : sendGratuitousARP lib pcapHandle ip iface =
      match lib.SerializeLayers (garpEthernet iface.HardwareAddr)
          (garpARP iface.HardwareAddr (ip.drop (ip.length - 4))) with
      | .error e => ⟨some ("Error serializing layers: " ++ e),
          some (garpEthernet iface.HardwareAddr,
            garpARP iface.HardwareAddr (ip.drop (ip.length - 4))), []⟩
      | .ok buffer =>
        match pcapHandle with
        | none => ⟨some "Could not get a handle to pcap...",
            some (garpEthernet iface.HardwareAddr,
              garpARP iface.HardwareAddr (ip.drop (ip.length - 4))), []⟩
        | some handle =>
          match handle.WritePacketData buffer with
          | some e => ⟨some ("error injecting packet: " ++ e),
              some (garpEthernet iface.HardwareAddr,
                garpARP iface.HardwareAddr (ip.drop (ip.length - 4))), [buffer]⟩
          | none => ⟨none,
              some (garpEthernet iface.HardwareAddr,
                garpARP iface.HardwareAddr (ip.drop (ip.length - 4))), [buffer]⟩ := by
    unfold sendGratuitousARP
    rw [h4]
    simp only
    rw [heth, harp]
  refine ⟨hlen, ?_, ?_, ?_⟩
  · rw [hrun]
    split
    · rfl
    · split
      · rfl
      · split <;> rfl
  · intro e he
    rw [hrun, he]
    exact ⟨rfl, rfl⟩
  · intro buffer hb
    rw [hrun, hb]
    refine ⟨?_, ?_⟩
    · intro hn
      rw [hn]
      exact ⟨rfl, rfl⟩
    · intro handle hsome
      rw [hsome]
      simp only
      cases handle.WritePacketData buffer <;> exact ⟨rfl, rfl⟩

/-- Witness of C3: address 192.168.1.50 on an interface with hardware address
`aa:bb:cc:dd:ee:ff`, with a serialiser that succeeds and an open handle whose write
succeeds: the layers are those of the announcement and the one buffer written is the
serialised frame. -/
theorem sendGratuitousARP_builds_garp_witness :
    (sendGratuitousARP exampleLib (some exampleHandle) [192, 168, 1, 50]
      exampleInterface).layers = some
      ({ SrcMAC := [0xaa, 0xbb, 0xcc, 0xdd, 0xee, 0xff]
         DstMAC := [0xff, 0xff, 0xff, 0xff, 0xff, 0xff]
         EthernetType := 0x0806 },
       { AddrType := 1
         Protocol := 0x0800
         HwAddressSize := 6
         ProtAddressSize := 4
         Operation := 2
         SourceHwAddress := [0xaa, 0xbb, 0xcc, 0xdd, 0xee, 0xff]
         SourceProtAddress := [192, 168, 1, 50]
         DstHwAddress := [0, 0, 0, 0, 0, 0]
         DstProtAddress := [192, 168, 1, 50] }) ∧
    (sendGratuitousARP exampleLib (some exampleHandle) [192, 168, 1, 50]
      exampleInterface).writes = [exampleGarpFrame] ∧
    (sendGratuitousARP exampleLib (some exampleHandle) [192, 168, 1, 50]
      exampleInterface).err = none :=
  ⟨(sendGratuitousARP_builds_garp exampleLib (some exampleHandle) [192, 168, 1, 50]
      exampleInterface (Or.inl (by decide)) (by decide)).2.1,
    (((sendGratuitousARP_builds_garp exampleLib (some exampleHandle) [192, 168, 1, 50]
      exampleInterface (Or.inl (by decide)) (by decide)).2.2.2 exampleGarpFrame
      (by rfl)).2 exampleHandle rfl).1,
    (((sendGratuitousARP_builds_garp exampleLib (some exampleHandle) [192, 168, 1, 50]
      exampleInterface (Or.inl (by decide)) (by decide)).2.2.2 exampleGarpFrame
      (by rfl)).2 exampleHandle rfl).2⟩

/-- C4: for an address without an IPv4 form, `sendGratuitousARP` returns the
only-IPv4 error, builds no layers and passes nothing to `WritePacketData`, whatever the
interface and the handle. -/
theorem sendGratuitousARP_rejects_non_ipv4 (lib : Lib) (pcapHandle : Option Handle)
    (ip : List Nat) (iface : Interface) (h : To4 ip = none) :
    sendGratuitousARP lib pcapHandle ip iface =
      { err := some "Only ipv4 addresses are supported for gARP"
        layers := none
        writes := [] } := by
  unfold sendGratuitousARP
  rw [h]

/-- Witness of C4: the address `2001:db8::1`, with an open handle. -/
theorem sendGratuitousARP_rejects_non_ipv4_witness :
    To4 [0x20, 0x01, 0x0d, 0xb8, 0, 0, 0, 0, 0, 0, 0, 0, 0, 0, 0, 1] = none ∧
    (sendGratuitousARP exampleLib (some exampleHandle)
      [0x20, 0x01, 0x0d, 0xb8, 0, 0, 0, 0, 0, 0, 0, 0, 0, 0, 0, 1] exampleInterface).writes
      = [] :=
  ⟨by decide,
    congrArg SendResult.writes
      (sendGratuitousARP_rejects_non_ipv4 exampleLib (some exampleHandle)
        [0x20, 0x01, 0x0d, 0xb8, 0, 0, 0, 0, 0, 0, 0, 0, 0, 0, 0, 1] exampleInterface
        (by decide))⟩

/-- C5: the status of the handler is 405 when the method is not GET; else 400 when
`target` or `new` is empty; else 400 when either does not parse; else 500 when
`sendGratuitousARP` on the parsed `new` returns an error and 200 when it does not. In
these last two cases `sendGratuitousARP` is called once, on the parsed `new`; a
response with status 405 or 400 comes with no call and no write to the handle. -/
theorem makeHandleSendGarp_status (lib : Lib) (pcapHandle : Option Handle)
    (device : String) (iface : Interface) (req : Request) :
    (req.Method ≠ "GET" →
      (makeHandleSendGarp lib pcapHandle device iface req).status = 405) ∧
    (req.Method = "GET" → (req.Query.Get "target" = "" ∨ req.Query.Get "new" = "") →
      (makeHandleSendGarp lib pcapHandle device iface req).status = 400) ∧
    (req.Method = "GET" → req.Query.Get "target" ≠ "" → req.Query.Get "new" ≠ "" →
      (lib.ParseIP (req.Query.Get "target") = none ∨
        lib.ParseIP (req.Query.Get "new") = none) →
      (makeHandleSendGarp lib pcapHandle device iface req).status = 400) ∧
    (∀ targetIP newIP, req.Method = "GET" → req.Query.Get "target" ≠ "" →
      req.Query.Get "new" ≠ "" → lib.ParseIP (req.Query.Get "target") = some targetIP →
      lib.ParseIP (req.Query.Get "new") = some newIP →
      (makeHandleSendGarp lib pcapHandle device iface req).status =
        (if (sendGratuitousARP lib pcapHandle newIP iface).err = none then 200 else 500) ∧
      (makeHandleSendGarp lib pcapHandle device iface req).garpCalls = [newIP] ∧
      (makeHandleSendGarp lib pcapHandle device iface req).writes =
        (sendGratuitousARP lib pcapHandle newIP iface).writes) ∧
    (((makeHandleSendGarp lib pcapHandle device iface req).status = 405 ∨
        (makeHandleSendGarp lib pcapHandle device iface req).status = 400) →
      (makeHandleSendGarp lib pcapHandle device iface req).garpCalls = [] ∧
      (makeHandleSendGarp lib pcapHandle device iface req).writes = []) := by
  refine ⟨?_, ?_, ?_, ?_, ?_⟩
  · intro hm
    simp [makeHandleSendGarp, MethodGet, hm, httpError, StatusMethodNotAllowed]
  · intro hm he
    simp [makeHandleSendGarp, MethodGet, hm, he, httpError, StatusBadRequest]
  · intro hm ht hn hp
    unfold makeHandleSendGarp
    simp only [MethodGet, hm, ne_eq, not_true_eq_false, if_false, ht, hn, or_self]
    rcases hp with hp | hp
    · rw [hp]
      rfl
    · rw [hp]
      cases lib.ParseIP (req.Query.Get "target") <;> rfl
  · intro targetIP newIP hm ht hn hpt hpn
    unfold makeHandleSendGarp
    simp only [MethodGet, hm, ne_eq, not_true_eq_false, if_false, ht, hn, or_self, hpt, hpn]
    cases hr : (sendGratuitousARP lib pcapHandle newIP iface).err with
    | none => simp [StatusOK]
    | some e => simp [httpError, StatusInternalServerError]
  · unfold makeHandleSendGarp
    by_cases hm : req.Method = "GET"
    · by_cases he : req.Query.Get "target" = "" ∨ req.Query.Get "new" = ""
      · simp [MethodGet, hm, he, httpError]
      · simp only [MethodGet, hm, ne_eq, not_true_eq_false, if_false, he]
        cases lib.ParseIP (req.Query.Get "target") with
        | none => simp [httpError]
        | some targetIP =>
          cases lib.ParseIP (req.Query.Get "new") with
          | none => simp [httpError]
          | some newIP =>
            simp only
            cases (sendGratuitousARP lib pcapHandle newIP iface).err with
            | none => simp [StatusOK]
            | some e => simp [httpError, StatusInternalServerError]
    · simp [MethodGet, hm, httpError]

/-- C10, counterexample: two GET requests without `new`, with `target=192.168.1.1` and
with `target=192.168.1.50`, meet the conditions of the claim and get different bodies,
since the body of the 400 response quotes the `target` value. -/
theorem makeHandleSendGarp_body_quotes_target :
    (exampleMissingNew "192.168.1.1").Method = "GET" ∧
    (exampleMissingNew "192.168.1.50").Method = "GET" ∧
    (exampleMissingNew "192.168.1.1").Query.Get "new" =
      (exampleMissingNew "192.168.1.50").Query.Get "new" ∧
    (exampleMissingNew "192.168.1.1").Query.Get "target" ≠ "" ∧
    (exampleMissingNew "192.168.1.50").Query.Get "target" ≠ "" ∧
    exampleLib.ParseIP ((exampleMissingNew "192.168.1.1").Query.Get "target") ≠ none ∧
    exampleLib.ParseIP ((exampleMissingNew "192.168.1.50").Query.Get "target") ≠ none ∧
    (makeHandleSendGarp exampleLib (some exampleHandle) "eth0" exampleInterface
        (exampleMissingNew "192.168.1.1")).body =
      "Missing \x27target\x27 or \x27new\x27 query parameters: \x27192.168.1.1\x27 - \x27\x27\n" ∧
    (makeHandleSendGarp exampleLib (some exampleHandle) "eth0" exampleInterface
        (exampleMissingNew "192.168.1.50")).body =
      "Missing \x27target\x27 or \x27new\x27 query parameters: \x27192.168.1.50\x27 - \x27\x27\n" ∧
    (makeHandleSendGarp exampleLib (some exampleHandle) "eth0" exampleInterface
        (exampleMissingNew "192.168.1.1")).body ≠
      (makeHandleSendGarp exampleLib (some exampleHandle) "eth0" exampleInterface
        (exampleMissingNew "192.168.1.50")).body := by
  decide

/-- C10, amended: two GET requests with the same `new` value, whose `target` values are
both non-empty and both parse, get the same status and cause the same calls of
`sendGratuitousARP` and the same writes; when `new` is not empty they also get the same
body; every address passed to `sendGratuitousARP` is the parsed `new` value. -/
theorem makeHandleSendGarp_target_only_validated (lib : Lib) (pcapHandle : Option Handle)
    (device : String) (iface : Interface) (req1 req2 : Request)
    (hm1 : req1.Method = "GET") (hm2 : req2.Method = "GET")
    (hnew : req1.Query.Get "new" = req2.Query.Get "new")
    (ht1 : req1.Query.Get "target" ≠ "") (ht2 : req2.Query.Get "target" ≠ "")
    (hp1 : lib.ParseIP (req1.Query.Get "target") ≠ none)
    (hp2 : lib.ParseIP (req2.Query.Get "target") ≠ none) :
    (makeHandleSendGarp lib pcapHandle device iface req1).status =
      (makeHandleSendGarp lib pcapHandle device iface req2).status ∧
    (makeHandleSendGarp lib pcapHandle device iface req1).garpCalls =
      (makeHandleSendGarp lib pcapHandle device iface req2).garpCalls ∧
    (makeHandleSendGarp lib pcapHandle device iface req1).writes =
      (makeHandleSendGarp lib pcapHandle device iface req2).writes ∧
    (req1.Query.Get "new" ≠ "" →
      makeHandleSendGarp lib pcapHandle device iface req1 =
        makeHandleSendGarp lib pcapHandle device iface req2) ∧
    ∀ ip ∈ (makeHandleSendGarp lib pcapHandle device iface req1).garpCalls,
      lib.ParseIP (req1.Query.Get "new") = some ip := by
  obtain ⟨t1, ht1p⟩ := Option.ne_none_iff_exists'.mp hp1
  obtain ⟨t2, ht2p⟩ := Option.ne_none_iff_exists'.mp hp2
  unfold makeHandleSendGarp
  simp only [MethodGet, hm1, hm2, ne_eq, not_true_eq_false, if_false, ht1, ht2, false_or,
    ht1p, ht2p, ← hnew]
  by_cases hn : req1.Query.Get "new" = ""
  · simp [hn, httpError]
  · simp only [hn, if_false]
    cases lib.ParseIP (req1.Query.Get "new") with
    | none => simp [httpError]
    | some newIP =>
      simp only
      cases (sendGratuitousARP lib pcapHandle newIP iface).err with
      | none => simp
      | some e => simp [httpError]

/-- Witness of C10: `new=192.168.1.50` with `target=192.168.1.1` and with
`target=192.168.1.50`. -/
theorem makeHandleSendGarp_target_only_validated_witness :
    makeHandleSendGarp exampleLib (some exampleHandle) "eth0" exampleInterface
        (exampleRequest "192.168.1.1" "192.168.1.50") =
      makeHandleSendGarp exampleLib (some exampleHandle) "eth0" exampleInterface
        (exampleRequest "192.168.1.50" "192.168.1.50") :=
  (makeHandleSendGarp_target_only_validated exampleLib (some exampleHandle) "eth0"
    exampleInterface (exampleRequest "192.168.1.1" "192.168.1.50")
    (exampleRequest "192.168.1.50" "192.168.1.50")
    (by decide) (by decide) (by decide) (by decide) (by decide) (by decide)
    (by decide)).2.2.2.1 (by decide)

end ArpExporter
